import Mathlib

/-!
Verification of the StudyByEnergy session/timer state machine against its
specification.  The definitions below are a shallow embedding of the
application code: the React component state of `App` (src/App.tsx, in its
final form with timer, feedback and cloud sync), the localStorage session
store, and the Supabase sync adapter (src/lib/supabase.ts).

Runtime values for the energy level and the activity are modelled as
`Option String` (JavaScript strings or null/undefined), exactly as they
live at runtime after a `JSON.parse`; the expected values are the string
literals "low" / "medium" / "high" and "study" / "rest" / "reflect".
Seconds are modelled as `Int` (JavaScript numbers on the integer range
used here), so that non-negativity is a real statement and not a typing
accident.
-/

namespace StudyByEnergy

/-- JavaScript truthiness for an optional string value: `null`/`undefined`
and the empty string are falsy, every other string is truthy. -/
def truthyS : Option String → Bool
  | none => false
  | some s => s ≠ ""

/-- The `SessionData` shape serialized to localStorage:
`{energyLevel, currentActivity, timestamp}` (App.tsx). -/
structure StoredSession where
  energyLevel : Option String
  currentActivity : Option String
  timestamp : String
  deriving DecidableEq, Repr

/-- A value held under a localStorage key: either a payload that parses
back to a `StoredSession`, or an unparseable string (the `catch` branch of
the load effect). `JSON.stringify`/`JSON.parse` round-tripping of
well-formed payloads is absorbed into the `json` constructor. -/
inductive StoredVal where
  | json (p : StoredSession)
  | malformed
  deriving DecidableEq, Repr

/-- localStorage contents: an association of keys to stored values. -/
def Store := List (String × StoredVal)

/-- `localStorage.getItem`: first binding of the key, if any. -/
def getItem : Store → String → Option StoredVal
  | [], _ => none
  | (k, v) :: rest, key => if k = key then some v else getItem rest key

/-- `localStorage.removeItem`: drop every binding of the key. -/
def removeItem (st : Store) (key : String) : Store :=
  st.filter (fun kv => kv.1 ≠ key)

/-- `localStorage.setItem`: overwrite semantics — the new binding replaces
any previous binding of the same key (last write wins). -/
def setItem (st : Store) (key : String) (v : StoredVal) : Store :=
  (key, v) :: removeItem st key

/-- The fixed storage key used by the application. -/
def sessionKey : String := "studyByEnergySession"

/-- The React component state of `App` (src/App.tsx): the session/timer
state machine.  `timerDuration` is in minutes, `timeRemaining` in seconds. -/
structure AppState where
  energyLevel : Option String
  currentActivity : Option String
  showReflection : Bool
  showTimer : Bool
  timerDuration : Nat
  timeRemaining : Int
  isTimerRunning : Bool
  pomodoroEnabled : Bool
  sessionComplete : Bool
  showFeedback : Bool
  isAuthenticated : Bool
  deriving DecidableEq, Repr

/-- The initial component state: all `useState` initial values of `App`. -/
def initialApp : AppState :=
  { energyLevel := none
    currentActivity := none
    showReflection := false
    showTimer := false
    timerDuration := 25
    timeRemaining := 0
    isTimerRunning := false
    pomodoroEnabled := false
    sessionComplete := false
    showFeedback := false
    isAuthenticated := false }

/-- Application plus browser storage; `now` is the wall-clock ISO string
that `new Date().toISOString()` yields at the current instant. -/
structure World where
  app : AppState
  store : Store
  now : String

/-- `handleEnergySelect(level)`: sets the energy level and clears the
current activity.  No other field is touched. -/
def handleEnergySelect (s : AppState) (level : Option String) : AppState :=
  { s with energyLevel := level, currentActivity := none }

/-- `handleActivitySelect(activity)`: sets the activity, hides the timer
panel, clears the completion and feedback flags, and flags the reflection
placeholder when the activity is reflect.  There is no guard on the
energy level. -/
def handleActivitySelect (s : AppState) (activity : Option String) : AppState :=
  { s with currentActivity := activity
           showTimer := false
           sessionComplete := false
           showFeedback := false
           showReflection := if activity = some "reflect" then true else s.showReflection }

/-- The state part of `handleReset()`: clears energy, activity and the
timer run-state.  `timerDuration` and `pomodoroEnabled` are not touched. -/
def handleResetApp (s : AppState) : AppState :=
  { s with energyLevel := none
           currentActivity := none
           showReflection := false
           showTimer := false
           isTimerRunning := false
           timeRemaining := 0
           sessionComplete := false
           showFeedback := false }

/-- `handleReset()`: clears the component state and removes the persisted
record from localStorage. -/
def handleReset (w : World) : World :=
  { w with app := handleResetApp w.app, store := removeItem w.store sessionKey }

/-- `handleStartTimer()`: shows the timer, loads `timerDuration * 60`
seconds and clears the completion flag.  `isTimerRunning` is not touched. -/
def handleStartTimer (s : AppState) : AppState :=
  { s with showTimer := true
           timeRemaining := (s.timerDuration : Int) * 60
           sessionComplete := false }

/-- `handlePlayPause()`: flips the running flag. -/
def handlePlayPause (s : AppState) : AppState :=
  { s with isTimerRunning := !s.isTimerRunning }

/-- `handleResetTimer()`: stops the countdown and restores the configured
duration. -/
def handleResetTimer (s : AppState) : AppState :=
  { s with isTimerRunning := false
           timeRemaining := (s.timerDuration : Int) * 60
           sessionComplete := false }

/-- `setTimerDuration(n)`: the duration presets and the range slider. -/
def setTimerDuration (s : AppState) (n : Nat) : AppState :=
  { s with timerDuration := n }

/-- One tick of the interval registered by the timer effect.  The interval
exists only while `isTimerRunning` and `timeRemaining > 0` held when the
effect ran; its callback maps `prev <= 1` to `0` with
`setIsTimerRunning(false)` and `setSessionComplete(true)`, otherwise to
`prev - 1`. -/
def tick (s : AppState) : AppState :=
  if s.isTimerRunning ∧ 0 < s.timeRemaining then
    if s.timeRemaining ≤ 1 then
      { s with timeRemaining := 0, isTimerRunning := false, sessionComplete := true }
    else
      { s with timeRemaining := s.timeRemaining - 1 }
  else s

/-- The save effect of `App`: whenever `energyLevel || currentActivity` is
truthy, write `{energyLevel, currentActivity, timestamp: now}` under the
fixed key. -/
def saveEffect (w : World) : World :=
  if truthyS w.app.energyLevel || truthyS w.app.currentActivity then
    let record := StoredVal.json ⟨w.app.energyLevel, w.app.currentActivity, w.now⟩
    { w with store := setItem w.store sessionKey record }
  else w

/-- The load effect of `App`, run on mount: read the fixed key; if absent
do nothing; if the payload fails to parse, catch and do nothing; otherwise
inject the parsed `energyLevel` and `currentActivity` verbatim into the
component state.  No validation of the parsed values is performed. -/
def loadSession (w : World) : World :=
  match getItem w.store sessionKey with
  | none => w
  | some StoredVal.malformed => w
  | some (StoredVal.json p) =>
      { w with app := { w.app with energyLevel := p.energyLevel
                                   currentActivity := p.currentActivity } }

/-- The energy-selection intent as dispatched by the UI: the handler runs,
then the save effect fires on the changed state. -/
def energySelect (w : World) (level : Option String) : World :=
  saveEffect { w with app := handleEnergySelect w.app level }

/-- The activity-selection intent as dispatched by the UI: the handler
runs, then the save effect fires on the changed state. -/
def activitySelect (w : World) (activity : Option String) : World :=
  saveEffect { w with app := handleActivitySelect w.app activity }

/-- The remote `SessionRecord` row shape (src/lib/supabase.ts). -/
structure SessionRecord where
  id : Option String
  user_id : Option String
  energy_level : String
  activity : String
  duration_minutes : Option Nat
  feedback : Option String
  created_at : Option String
  deriving DecidableEq, Repr

/-- The external circumstances of one `syncSession` call: whether the
Supabase client was constructed (both env vars present), which user
`auth.getUser()` resolves to, whether the insert comes back with an error
(or throws), and the client wall clock at the call. -/
structure SyncEnv where
  configured : Bool
  user : Option String
  insertFails : Bool
  now : String

/-- The observable outcome of one `syncSession` call: the returned
boolean, whether `auth.getUser()` was reached, and the row handed to
`insert` (if the call got that far). -/
structure SyncOutcome where
  ok : Bool
  calledGetUser : Bool
  insertAttempt : Option SessionRecord
  deriving DecidableEq, Repr

/-- The row built for `insert`: the session record spread first, then
`user_id` and `created_at` overridden with the caller identity and
`new Date().toISOString()` evaluated on the client. -/
def insertPayload (session : SessionRecord) (userId clientNow : String) : SessionRecord :=
  { session with user_id := some userId, created_at := some clientNow }

/-- `syncSession(session)` (src/lib/supabase.ts): returns false when the
client is not configured; otherwise resolves the user, returns false with
no insert when unauthenticated; otherwise inserts the payload, returning
false on error and true on success.  Every branch returns a boolean — the
surrounding try/catch turns any thrown error into a logged warning and
false, so the function is total. -/
def syncSession (env : SyncEnv) (session : SessionRecord) : SyncOutcome :=
  if !env.configured then
    { ok := false, calledGetUser := false, insertAttempt := none }
  else
    match env.user with
    | none => { ok := false, calledGetUser := true, insertAttempt := none }
    | some u =>
        let payload := insertPayload session u env.now
        if env.insertFails then
          { ok := false, calledGetUser := true, insertAttempt := some payload }
        else
          { ok := true, calledGetUser := true, insertAttempt := some payload }

/-- `handleCompleteFeedback(feedback)`: when authenticated and both the
energy level and the activity are truthy, builds one
`{energy_level, activity, duration_minutes, feedback}` record and fires
`syncSession` on it without awaiting; then hides the feedback prompt and
runs `handleReset`.  Returns the new world together with the list of sync
attempts scheduled (the code schedules at most one). -/
def handleCompleteFeedback (w : World) (feedback : Option String) :
    World × List SessionRecord :=
  let attempts :=
    match w.app.energyLevel, w.app.currentActivity with
    | some e, some a =>
        if w.app.isAuthenticated && e ≠ "" && a ≠ "" then
          [{ id := none
             user_id := none
             energy_level := e
             activity := a
             duration_minutes := some w.app.timerDuration
             feedback := feedback
             created_at := none }]
        else []
    | _, _ => []
  let hidden := { w with app := { w.app with showFeedback := false } }
  (handleReset hidden, attempts)

/-- `submitFeedback` together with the detached sync tasks it spawns: the
scheduled records are handed to `syncSession` under the ambient `SyncEnv`,
but the resulting world is the first component alone — the caller never
awaits or reads the outcomes. -/
def submitFeedbackAndSync (w : World) (feedback : Option String) (env : SyncEnv) :
    World × List SyncOutcome :=
  let step := handleCompleteFeedback w feedback
  (step.1, step.2.map (syncSession env))

/-- The timer-screen events of one timer run: interval ticks, the
play/pause button and the timer reset button. -/
inductive TimerEvent where
  | tick
  | playPause
  | resetTimer
  deriving DecidableEq, Repr

/-- Dispatch one timer-screen event. -/
def stepTimer (s : AppState) : TimerEvent → AppState
  | TimerEvent.tick => tick s
  | TimerEvent.playPause => handlePlayPause s
  | TimerEvent.resetTimer => handleResetTimer s

/-- Run a sequence of timer-screen events. -/
def runTimer (s : AppState) (evs : List TimerEvent) : AppState :=
  evs.foldl stepTimer s

/-- The timer-run invariant of the spec: the remaining seconds stay in
`[0, durationMinutes * 60]` and the configured duration is stable. -/
def TimerInv (d : Nat) (s : AppState) : Prop :=
  0 ≤ s.timeRemaining ∧ s.timeRemaining ≤ (d : Int) * 60 ∧ s.timerDuration = d

/-- The `Idle` state of the spec: no energy chosen (and hence no
activity). -/
def Idle (s : AppState) : Prop :=
  s.energyLevel = none ∧ s.currentActivity = none

/-- The `ActivityChosen` state of the spec: an energy level is set, the
activity is study or rest, and the timer sub-flow has not started (timer
panel hidden, countdown not running). -/
def ActivityChosen (s : AppState) : Prop :=
  s.energyLevel ≠ none ∧
  (s.currentActivity = some "study" ∨ s.currentActivity = some "rest") ∧
  s.showTimer = false ∧ s.isTimerRunning = false

/-- The `FeedbackPrompt` state of the spec: the feedback screen is shown
after a completed run, with a truthy energy level and activity. -/
def FeedbackPrompt (s : AppState) : Prop :=
  s.showFeedback = true ∧ s.sessionComplete = true ∧
  truthyS s.energyLevel = true ∧ truthyS s.currentActivity = true

/-! ## Helper lemmas -/

/-- The save effect only writes to the store; the component state is
untouched. -/
@[simp]
lemma saveEffect_app (w : World) : (saveEffect w).app = w.app := by
  unfold saveEffect
  split <;> rfl

/-- The save effect does not change the clock. -/
@[simp]
lemma saveEffect_now (w : World) : (saveEffect w).now = w.now := by
  unfold saveEffect
  split <;> rfl

/-- Reading a key just written yields the written value. -/
@[simp]
lemma getItem_setItem (st : Store) (key : String) (v : StoredVal) :
    getItem (setItem st key v) key = some v := by
  simp [setItem, getItem]

/-- Reading a key just removed yields nothing. -/
@[simp]
lemma getItem_removeItem (st : Store) (key : String) :
    getItem (removeItem st key) key = none := by
  induction st with
  | nil => rfl
  | cons kv rest ih =>
      by_cases h : kv.1 = key
      · simpa [removeItem, h] using ih
      · simpa [removeItem, getItem, h] using ih

@[simp]
lemma truthyS_high : truthyS (some "high") = true := by decide

@[simp]
lemma truthyS_study : truthyS (some "study") = true := by decide

/-- One timer-screen event preserves the timer-run invariant. -/
lemma timerInv_stepTimer (d : Nat) (s : AppState) (ev : TimerEvent)
    (h : TimerInv d s) : TimerInv d (stepTimer s ev) := by
  obtain ⟨h0, h1, hd⟩ := h
  cases ev with
  | tick =>
      show TimerInv d (tick s)
      unfold tick
      split
      next hcond =>
        obtain ⟨-, hpos⟩ := hcond
        split
        next hle =>
          refine ⟨le_refl 0, ?_, hd⟩
          show (0 : Int) ≤ (d : Int) * 60
          positivity
        next hgt =>
          refine ⟨?_, ?_, hd⟩
          · show (0 : Int) ≤ s.timeRemaining - 1
            omega
          · show s.timeRemaining - 1 ≤ (d : Int) * 60
            omega
      next => exact ⟨h0, h1, hd⟩
  | playPause => exact ⟨h0, h1, hd⟩
  | resetTimer =>
      refine ⟨?_, ?_, hd⟩
      · show (0 : Int) ≤ (s.timerDuration : Int) * 60
        positivity
      · show (s.timerDuration : Int) * 60 ≤ (d : Int) * 60
        rw [hd]

/-- A whole sequence of timer-screen events preserves the timer-run
invariant. -/
lemma timerInv_runTimer (d : Nat) (s : AppState) (evs : List TimerEvent)
    (h : TimerInv d s) : TimerInv d (runTimer s evs) := by
  induction evs generalizing s with
  | nil => exact h
  | cons ev rest ih => exact ih _ (timerInv_stepTimer d s ev h)

/-! ## Claim theorems -/

/-- Claim C4, counterexample: `handleActivitySelect` called on the initial
state, where no energy level is set, is not a no-op — it sets the activity
anyway.  There is no energy guard in the handler. -/
theorem selectActivity_without_energy_cex :
    initialApp.energyLevel = none ∧
    (handleActivitySelect initialApp (some "study")).currentActivity = some "study" ∧
    handleActivitySelect initialApp (some "study") ≠ initialApp := by
  refine ⟨rfl, rfl, ?_⟩
  decide

/-- Claim C4, amended: `handleActivitySelect` applies unconditionally,
whether or not an energy level is set: it sets the activity, hides the
timer panel, clears the completion and feedback flags, and leaves the
energy level unchanged.  The invalid transition is prevented only by the
presentation layer, which does not render activity buttons while
`energyLevel` is null. -/
theorem selectActivity_unconditional (s : AppState) (a : Option String) :
    (handleActivitySelect s a).currentActivity = a ∧
    (handleActivitySelect s a).energyLevel = s.energyLevel ∧
    (handleActivitySelect s a).showTimer = false ∧
    (handleActivitySelect s a).sessionComplete = false ∧
    (handleActivitySelect s a).showFeedback = false := by
  simp [handleActivitySelect]

/-- Claim C3, counterexample: a running countdown survives a new energy
selection.  From the initial state: select high energy, select study,
start a 25-minute timer, press play, let one tick pass (1499 s left), then
select a new energy level.  The countdown is still running with 1499 s and
the next tick brings it to 1498 s — the timer state is not discarded. -/
theorem selectEnergy_countdown_continues_cex :
    (handleEnergySelect
        (tick (handlePlayPause (handleStartTimer
          (handleActivitySelect (handleEnergySelect initialApp (some "high"))
            (some "study")))))
        (some "low")).isTimerRunning = true ∧
    (handleEnergySelect
        (tick (handlePlayPause (handleStartTimer
          (handleActivitySelect (handleEnergySelect initialApp (some "high"))
            (some "study")))))
        (some "low")).timeRemaining = 1499 ∧
    (tick (handleEnergySelect
        (tick (handlePlayPause (handleStartTimer
          (handleActivitySelect (handleEnergySelect initialApp (some "high"))
            (some "study")))))
        (some "low"))).timeRemaining = 1498 := by
  refine ⟨?_, ?_, ?_⟩ <;> decide

/-- Claim C3, amended: selecting a new energy level sets the energy level
to the chosen value and clears the activity to null, but it does not
discard the timer sub-state: `timeRemaining`, `isTimerRunning`,
`sessionComplete` and `showTimer` are all carried over unchanged, so a
running countdown continues across the new energy selection. -/
theorem selectEnergy_keeps_timer_state (w : World) (level : Option String) :
    (energySelect w level).app.energyLevel = level ∧
    (energySelect w level).app.currentActivity = none ∧
    (energySelect w level).app.timeRemaining = w.app.timeRemaining ∧
    (energySelect w level).app.isTimerRunning = w.app.isTimerRunning ∧
    (energySelect w level).app.sessionComplete = w.app.sessionComplete ∧
    (energySelect w level).app.showTimer = w.app.showTimer := by
  simp [energySelect, handleEnergySelect]

/-- Claim C5, counterexample: `handleReset` does not clear the timer
configuration.  From the initial state set the 45-minute preset and enable
pomodoro; after a reset both settings are still there (the duration is not
even back at its initial value of 25). -/
theorem reset_retains_timer_config_cex :
    (handleReset
        { app := setTimerDuration initialApp 45
          store := [], now := "2026-01-01T00:00:00.000Z" }).app.timerDuration = 45 ∧
    (handleReset
        { app := { setTimerDuration initialApp 45 with pomodoroEnabled := true }
          store := [], now := "2026-01-01T00:00:00.000Z" }).app.pomodoroEnabled = true ∧
    (45 : Nat) ≠ initialApp.timerDuration := by
  refine ⟨rfl, rfl, ?_⟩
  decide

/-- Claim C5, amended: `handleReset` from any state clears the session
fields and the timer run-state — energy, activity, reflection flag, timer
panel, running flag, remaining seconds, completion and feedback flags —
deletes the persisted record (so a subsequent load finds nothing and
leaves the state unchanged), and returns to `Idle`; but the timer
configuration (`timerDuration` and `pomodoroEnabled`) is retained, not
cleared. -/
theorem reset_clears_session_retains_config (w : World) :
    Idle (handleReset w).app ∧
    (handleReset w).app.showReflection = false ∧
    (handleReset w).app.showTimer = false ∧
    (handleReset w).app.isTimerRunning = false ∧
    (handleReset w).app.timeRemaining = 0 ∧
    (handleReset w).app.sessionComplete = false ∧
    (handleReset w).app.showFeedback = false ∧
    (handleReset w).app.timerDuration = w.app.timerDuration ∧
    (handleReset w).app.pomodoroEnabled = w.app.pomodoroEnabled ∧
    getItem (handleReset w).store sessionKey = none ∧
    loadSession (handleReset w) = handleReset w := by
  refine ⟨⟨rfl, rfl⟩, rfl, rfl, rfl, rfl, rfl, rfl, rfl, rfl, ?_, ?_⟩
  · simp [handleReset]
  · unfold loadSession
    simp [handleReset]

/-- Claim C6: from `ActivityChosen` (energy set, activity study or rest,
timer sub-flow not started), `handleStartTimer` loads
`timerDuration * 60` remaining seconds, clears the completion flag and
enters the timer screen with the countdown not yet running; with the
25-minute duration this is 1500 s immediately, still 1500 s after a tick
while paused, and 1499 s after one tick once play is pressed. -/
theorem startTimer_loads_duration (s : AppState) (h : ActivityChosen s) :
    (handleStartTimer s).timeRemaining = (s.timerDuration : Int) * 60 ∧
    (handleStartTimer s).sessionComplete = false ∧
    (handleStartTimer s).showTimer = true ∧
    (handleStartTimer s).isTimerRunning = false ∧
    (s.timerDuration = 25 →
      (handleStartTimer s).timeRemaining = 1500 ∧
      (tick (handleStartTimer s)).timeRemaining = 1500 ∧
      (tick (handlePlayPause (handleStartTimer s))).timeRemaining = 1499) := by
  obtain ⟨-, -, -, hrun⟩ := h
  refine ⟨rfl, rfl, rfl, hrun, ?_⟩
  intro hd
  refine ⟨?_, ?_, ?_⟩
  · simp [handleStartTimer, hd]
  · simp [tick, handleStartTimer, hrun, hd]
  · simp [tick, handlePlayPause, handleStartTimer, hrun, hd]

/-- Claim C6, witness: the theorem instantiated at a concrete
`ActivityChosen` state with the 25-minute duration. -/
theorem startTimer_loads_duration_witness :
    (handleStartTimer
      { initialApp with energyLevel := some "high",
                        currentActivity := some "study" }).timeRemaining = 1500 ∧
    (tick (handlePlayPause (handleStartTimer
      { initialApp with energyLevel := some "high",
                        currentActivity := some "study" }))).timeRemaining = 1499 := by
  have h := startTimer_loads_duration
    { initialApp with energyLevel := some "high", currentActivity := some "study" }
    ⟨by decide, Or.inl rfl, rfl, rfl⟩
  exact ⟨(h.2.2.2.2 rfl).1, (h.2.2.2.2 rfl).2.2⟩

/-- Claim C10: the load effect performs no validation beyond parsing —
whatever values a successfully parsed payload holds for `energyLevel` and
`currentActivity` are injected verbatim into the component state,
including values outside the expected enumerations and absent fields. -/
theorem load_injects_verbatim (w : World) (p : StoredSession)
    (h : getItem w.store sessionKey = some (StoredVal.json p)) :
    (loadSession w).app.energyLevel = p.energyLevel ∧
    (loadSession w).app.currentActivity = p.currentActivity := by
  unfold loadSession
  rw [h]
  exact ⟨rfl, rfl⟩

/-- Claim C10, witness: a stored payload holding the out-of-enumeration
value banana for the energy level and a missing activity field is restored
verbatim. -/
theorem load_injects_verbatim_witness :
    (loadSession
      { app := initialApp
        store := [(sessionKey, StoredVal.json ⟨some "banana", none, "T0"⟩)]
        now := "T0" }).app.energyLevel = some "banana" ∧
    (loadSession
      { app := initialApp
        store := [(sessionKey, StoredVal.json ⟨some "banana", none, "T0"⟩)]
        now := "T0" }).app.currentActivity = none := by
  exact load_injects_verbatim _ ⟨some "banana", none, "T0"⟩ (by simp [getItem])

/-- Claim C2: while the countdown is running with seconds left, a tick
decrements the remaining seconds by exactly 1; the tick that reaches 0
also forces `isRunning = false` and `isComplete = true`, and once the
remaining time is 0 further ticks change nothing at all; and from
`handleStartTimer` every sequence of timer-screen events keeps the
remaining seconds inside `[0, durationMinutes * 60]`, never negative. -/
theorem timer_tick_behaviour (d : Nat) (s : AppState) (evs : List TimerEvent) :
    (s.isTimerRunning = true → 0 < s.timeRemaining →
      (tick s).timeRemaining = s.timeRemaining - 1) ∧
    (s.isTimerRunning = true → s.timeRemaining = 1 →
      (tick s).timeRemaining = 0 ∧ (tick s).isTimerRunning = false ∧
      (tick s).sessionComplete = true) ∧
    (s.timeRemaining = 0 → tick s = s) ∧
    (s.timerDuration = d → TimerInv d (runTimer (handleStartTimer s) evs)) := by
  refine ⟨?_, ?_, ?_, ?_⟩
  · intro hr hpos
    by_cases hle : s.timeRemaining ≤ 1
    · have ht : tick s =
          { s with timeRemaining := 0, isTimerRunning := false, sessionComplete := true } := by
        unfold tick
        rw [if_pos ⟨hr, hpos⟩, if_pos hle]
      rw [ht]
      show (0 : Int) = s.timeRemaining - 1
      omega
    · have ht : tick s = { s with timeRemaining := s.timeRemaining - 1 } := by
        unfold tick
        rw [if_pos ⟨hr, hpos⟩, if_neg hle]
      rw [ht]
  · intro hr h1
    have ht : tick s =
        { s with timeRemaining := 0, isTimerRunning := false, sessionComplete := true } := by
      unfold tick
      rw [if_pos ⟨hr, by omega⟩, if_pos (by omega)]
    rw [ht]
    exact ⟨rfl, rfl, rfl⟩
  · intro h0
    unfold tick
    rw [if_neg]
    rintro ⟨-, hpos⟩
    omega
  · intro hd
    refine timerInv_runTimer d _ evs ⟨?_, ?_, hd⟩
    · show (0 : Int) ≤ (s.timerDuration : Int) * 60
      positivity
    · show (s.timerDuration : Int) * 60 ≤ (d : Int) * 60
      rw [hd]

/-- Claim C2, witness: the theorem instantiated at concrete states — a
running timer at 5 s decrements to 4 s, a running timer at 1 s completes,
the initial state (0 s) is untouched by a tick, and a started 25-minute
run followed by play and one tick satisfies the invariant. -/
theorem timer_tick_behaviour_witness :
    (tick { initialApp with isTimerRunning := true, timeRemaining := 5 }).timeRemaining =
      ({ initialApp with isTimerRunning := true, timeRemaining := 5 } : AppState).timeRemaining - 1 ∧
    ((tick { initialApp with isTimerRunning := true, timeRemaining := 1 }).timeRemaining = 0 ∧
      (tick { initialApp with isTimerRunning := true, timeRemaining := 1 }).isTimerRunning = false ∧
      (tick { initialApp with isTimerRunning := true, timeRemaining := 1 }).sessionComplete = true) ∧
    tick initialApp = initialApp ∧
    TimerInv 25 (runTimer (handleStartTimer initialApp)
      [TimerEvent.playPause, TimerEvent.tick]) := by
  refine ⟨?_, ?_, ?_, ?_⟩
  · exact (timer_tick_behaviour 25
      { initialApp with isTimerRunning := true, timeRemaining := 5 } []).1 rfl (by decide)
  · exact (timer_tick_behaviour 25
      { initialApp with isTimerRunning := true, timeRemaining := 1 } []).2.1 rfl rfl
  · exact (timer_tick_behaviour 25 initialApp []).2.2.1 rfl
  · exact (timer_tick_behaviour 25 initialApp
      [TimerEvent.playPause, TimerEvent.tick]).2.2.2 rfl

/-- Claim C7: after selecting high energy and then the study activity, the
store holds, under the fixed key, the record of the latest transition
(each write overwrites the previous one — the intermediate record after
the energy selection had a null activity); loading that store in a fresh
instance reproduces energy high and activity study. -/
theorem persist_reload_roundtrip (w fresh : World) :
    getItem (energySelect w (some "high")).store sessionKey =
      some (StoredVal.json ⟨some "high", none, w.now⟩) ∧
    getItem (activitySelect (energySelect w (some "high")) (some "study")).store sessionKey =
      some (StoredVal.json ⟨some "high", some "study", w.now⟩) ∧
    (loadSession { fresh with
        store := (activitySelect (energySelect w (some "high")) (some "study")).store
      }).app.energyLevel = some "high" ∧
    (loadSession { fresh with
        store := (activitySelect (energySelect w (some "high")) (some "study")).store
      }).app.currentActivity = some "study" := by
  refine ⟨?_, ?_, ?_, ?_⟩ <;>
    simp [energySelect, activitySelect, saveEffect, handleEnergySelect,
      handleActivitySelect, loadSession]

/-- Claim C8: `syncSession` returns a boolean and, being defined by
total case analysis on the call circumstances, never raises: with no
configured client it returns false having made no call at all (neither
the user lookup nor the insert); with a configured client but no
resolvable identity it returns false without attempting the insert; and
when the insert errors it returns false. -/
theorem syncSession_guarded_failures (env : SyncEnv) (session : SessionRecord) :
    (env.configured = false →
      syncSession env session =
        { ok := false, calledGetUser := false, insertAttempt := none }) ∧
    (env.user = none →
      (syncSession env session).ok = false ∧
      (syncSession env session).insertAttempt = none) ∧
    (env.insertFails = true → (syncSession env session).ok = false) := by
  refine ⟨?_, ?_, ?_⟩
  · intro h
    simp [syncSession, h]
  · intro h
    cases hc : env.configured <;> simp [syncSession, hc, h]
  · intro h
    cases hc : env.configured <;> rcases hu : env.user with _ | u <;>
      simp [syncSession, hc, hu, h]

/-- A sample completed-session record used to instantiate the sync
theorems. -/
def sampleRecord : SessionRecord :=
  { id := none, user_id := none, energy_level := "high", activity := "study",
    duration_minutes := some 25, feedback := some "good", created_at := none }

/-- Claim C8, witness: the theorem instantiated at an unconfigured call,
an unauthenticated call, and a failing insert. -/
theorem syncSession_guarded_failures_witness :
    syncSession { configured := false, user := none, insertFails := false, now := "T0" }
        sampleRecord =
      { ok := false, calledGetUser := false, insertAttempt := none } ∧
    ((syncSession { configured := true, user := none, insertFails := false, now := "T0" }
        sampleRecord).ok = false ∧
      (syncSession { configured := true, user := none, insertFails := false, now := "T0" }
        sampleRecord).insertAttempt = none) ∧
    (syncSession { configured := true, user := some "u1", insertFails := true, now := "T0" }
        sampleRecord).ok = false := by
  refine ⟨?_, ?_, ?_⟩
  · exact (syncSession_guarded_failures
      { configured := false, user := none, insertFails := false, now := "T0" }
      sampleRecord).1 rfl
  · exact (syncSession_guarded_failures
      { configured := true, user := none, insertFails := false, now := "T0" }
      sampleRecord).2.1 rfl
  · exact (syncSession_guarded_failures
      { configured := true, user := some "u1", insertFails := true, now := "T0" }
      sampleRecord).2.2 rfl

/-- A configured, authenticated, successful sync environment whose client
clock is set to a date the server could never observe. -/
def staleClockEnv : SyncEnv :=
  { configured := true
    user := some "user-1"
    insertFails := false
    now := "1999-12-31T23:59:59.000Z" }

/-- Claim C9, counterexample: the row handed to the insert carries a
`created_at` value generated on the client — it equals the client clock
string passed into the call (a date the server could never observe), so
the field is supplied in the payload rather than stamped by the server. -/
theorem created_at_client_supplied_cex :
    (syncSession staleClockEnv sampleRecord).ok = true ∧
    (syncSession staleClockEnv sampleRecord).insertAttempt =
      some { sampleRecord with user_id := some "user-1"
                               created_at := some "1999-12-31T23:59:59.000Z" } := by
  exact ⟨rfl, rfl⟩

/-- Claim C9, amended: for every record appended by the Remote Sync
Client, `created_at` is a wall-clock ISO timestamp generated by the
client at call time and supplied in the insert payload; the row inserted
is exactly the session record with `user_id` and `created_at` overridden
by the caller identity and the client clock. -/
theorem created_at_client_generated (env : SyncEnv) (session : SessionRecord)
    (u : String) (h1 : env.configured = true) (h2 : env.user = some u) :
    (syncSession env session).insertAttempt = some (insertPayload session u env.now) ∧
    (insertPayload session u env.now).created_at = some env.now := by
  constructor
  · cases hf : env.insertFails <;> simp [syncSession, h1, h2, hf]
  · rfl

/-- Claim C9, witness: the amended theorem instantiated at a configured,
authenticated, successful call. -/
theorem created_at_client_generated_witness :
    (syncSession { configured := true, user := some "u1", insertFails := false, now := "T0" }
        sampleRecord).insertAttempt = some (insertPayload sampleRecord "u1" "T0") ∧
    (insertPayload sampleRecord "u1" "T0").created_at = some "T0" := by
  exact created_at_client_generated
    { configured := true, user := some "u1", insertFails := false, now := "T0" }
    sampleRecord "u1" rfl rfl

/-- Claim C1: from `FeedbackPrompt`, submitting any feedback choice
(including skip, i.e. none) makes the state machine go to `Idle`
unconditionally: the resulting world is `handleReset` of the world with
the prompt hidden, computed without consulting the sync environment at
all, so it is identical under a failing, hanging or succeeding sync; and
when an identity is present exactly one sync attempt is scheduled,
carrying the energy level, the activity, the configured duration in
minutes, and the feedback. -/
theorem submitFeedback_nonblocking_idle (w : World) (fb : Option String)
    (env env2 : SyncEnv) (h : FeedbackPrompt w.app) :
    Idle (submitFeedbackAndSync w fb env).1.app ∧
    (submitFeedbackAndSync w fb env).1 =
      handleReset { w with app := { w.app with showFeedback := false } } ∧
    (submitFeedbackAndSync w fb env).1 = (submitFeedbackAndSync w fb env2).1 ∧
    (w.app.isAuthenticated = true →
      (handleCompleteFeedback w fb).2 =
        [{ id := none, user_id := none,
           energy_level := w.app.energyLevel.getD "",
           activity := w.app.currentActivity.getD "",
           duration_minutes := some w.app.timerDuration,
           feedback := fb, created_at := none }]) := by
  obtain ⟨hsf, hsc, he, ha⟩ := h
  refine ⟨⟨rfl, rfl⟩, rfl, rfl, ?_⟩
  intro hauth
  rcases hE : w.app.energyLevel with _ | e
  · rw [hE] at he
    exact absurd he (by decide)
  rcases hA : w.app.currentActivity with _ | a
  · rw [hA] at ha
    exact absurd ha (by decide)
  rw [hE] at he
  rw [hA] at ha
  have heP : e ≠ "" := by simpa [truthyS] using he
  have haP : a ≠ "" := by simpa [truthyS] using ha
  simp [handleCompleteFeedback, hE, hA, hauth, heP, haP]

/-- The component state in which the feedback prompt is open after a
completed 25-minute study run of a high-energy check-in, with an
authenticated user. -/
def feedbackApp : AppState :=
  { initialApp with
      energyLevel := some "high"
      currentActivity := some "study"
      showTimer := true
      sessionComplete := true
      showFeedback := true
      isAuthenticated := true }

/-- The world holding `feedbackApp` together with its persisted record. -/
def feedbackWorld : World :=
  { app := feedbackApp
    store := [(sessionKey, StoredVal.json ⟨some "high", some "study", "T0"⟩)]
    now := "T1" }

/-- Claim C1, witness: the theorem instantiated at `feedbackWorld` with a
failing sync environment on one side and a succeeding one on the other —
the resulting world is `Idle` and identical under both, and exactly one
record is scheduled. -/
theorem submitFeedback_nonblocking_idle_witness :
    Idle (submitFeedbackAndSync feedbackWorld (some "good")
      { configured := true, user := some "u1", insertFails := true, now := "TZ" }).1.app ∧
    (submitFeedbackAndSync feedbackWorld (some "good")
      { configured := true, user := some "u1", insertFails := true, now := "TZ" }).1 =
    (submitFeedbackAndSync feedbackWorld (some "good")
      { configured := true, user := some "u1", insertFails := false, now := "TZ" }).1 ∧
    (handleCompleteFeedback feedbackWorld (some "good")).2 =
      [{ id := none, user_id := none, energy_level := "high", activity := "study",
         duration_minutes := some 25, feedback := some "good", created_at := none }] := by
  have h := submitFeedback_nonblocking_idle feedbackWorld (some "good")
    { configured := true, user := some "u1", insertFails := true, now := "TZ" }
    { configured := true, user := some "u1", insertFails := false, now := "TZ" }
    (by refine ⟨rfl, rfl, ?_, ?_⟩ <;> decide)
  exact ⟨h.1, h.2.2.1, h.2.2.2 rfl⟩

end StudyByEnergy
